import Mathlib

/-!
Verification development for the easypptx layout core
(`src/easypptx/slide.py` and `src/easypptx/grid.py`).

Python floats are modelled as exact rationals (ℚ); machine slide
dimensions (EMUs) are rationals as well.  Fallible operations
(Python exceptions) are modelled with `Except`.
-/

/-- A `PositionType` value: either a percentage string such as `"20%"`
(carrying the parsed numeric part) or an absolute length in inches.
Mirrors `PositionType = Union[float, str]` in `slide.py`, restricted to
the two shapes `_convert_position` distinguishes. -/
inductive PosValue where
  | pct (p : ℚ)
  | abs (v : ℚ)
deriving DecidableEq

/-- The cached slide dimensions, in EMUs (`Slide._slide_width`,
`Slide._slide_height` in `slide.py`). -/
structure Slide where
  slide_width : ℚ
  slide_height : ℚ
deriving DecidableEq

/-- Embedding of `Slide._convert_position` (`slide.py` lines 84-117).
For a percentage value with `h_align == "center"` and `is_width`, the
aspect-ratio correction is applied inside a `try`/`except` whose only
possible failure in the rational model is the division by a zero
slide height (Python `ZeroDivisionError`), which the bare `except`
turns into the uncorrected base calculation. -/
def Slide.convert_position (s : Slide) (value : PosValue) (slide_dimension : ℚ)
    (is_width : Bool) (h_align : Option String) : ℚ :=
  match value with
  | .pct percent =>
    if h_align = some "center" ∧ is_width = true then
      let position_inches := (percent / 100) * (slide_dimension / 914400)
      if s.slide_height = 0 then
        (percent / 100) * (slide_dimension / 914400)
      else
        let current_ratio := s.slide_width / s.slide_height
        let standard_ratio : ℚ := 16 / 9
        if |current_ratio - standard_ratio| > 1 / 100 then
          position_inches * (1 + (current_ratio / standard_ratio - 1) * (1 / 2))
        else
          position_inches
    else
      (percent / 100) * (slide_dimension / 914400)
  | .abs v => v

/-- C1: with no centering (`h_align = none`) a percentage value resolves to
`percent / 100` of the reference size on either axis; the reference size
`slide_dimension` is given in EMUs and the result in inches
(`slide_dimension / 914400` is the reference size expressed in inches). -/
theorem C1_resolve_pct_no_align (s : Slide) (percent slide_dimension : ℚ) (is_width : Bool)
    (h0 : 0 ≤ percent) (h100 : percent ≤ 100) (hd : 0 < slide_dimension) :
    s.convert_position (.pct percent) slide_dimension is_width none
      = percent / 100 * (slide_dimension / 914400) := by
  simp [Slide.convert_position]

theorem C1_resolve_pct_no_align_witness :
    (0 : ℚ) ≤ 50 ∧ (50 : ℚ) ≤ 100 ∧ (0 : ℚ) < 9144000 ∧
    Slide.convert_position ⟨9144000, 6858000⟩ (.pct 50) 9144000 true none
      = 50 / 100 * (9144000 / 914400) :=
  ⟨by norm_num, by norm_num, by norm_num,
    C1_resolve_pct_no_align ⟨9144000, 6858000⟩ 50 9144000 true
      (by norm_num) (by norm_num) (by norm_num)⟩

/-- C2: with `h_align = "center"` on the horizontal axis, when the ambient
ratio is within 0.01 of 16/9 the result is the uncorrected base
calculation, and otherwise the base is scaled by
`1 + (ratio / (16/9) - 1) * 0.5`. -/
theorem C2_resolve_center_ratio (s : Slide) (percent slide_dimension : ℚ)
    (hh : s.slide_height ≠ 0) :
    s.convert_position (.pct percent) slide_dimension true (some "center")
      = if |s.slide_width / s.slide_height - 16 / 9| ≤ 1 / 100 then
          percent / 100 * (slide_dimension / 914400)
        else
          (percent / 100 * (slide_dimension / 914400))
            * (1 + ((s.slide_width / s.slide_height) / (16 / 9) - 1) * (1 / 2)) := by
  simp only [Slide.convert_position, hh, if_false]
  rcases le_or_lt |s.slide_width / s.slide_height - 16 / 9| (1 / 100) with h | h
  · rw [if_neg (not_lt.mpr h), if_pos h]; simp
  · rw [if_pos h, if_neg (not_le.mpr h)]; simp

theorem C2_resolve_center_ratio_witness :
    (⟨12192000, 6858000⟩ : Slide).slide_height ≠ 0 ∧
    Slide.convert_position ⟨12192000, 6858000⟩ (.pct 50) 12192000 true (some "center")
      = if |(12192000 : ℚ) / 6858000 - 16 / 9| ≤ 1 / 100 then
          (50 : ℚ) / 100 * (12192000 / 914400)
        else
          ((50 : ℚ) / 100 * (12192000 / 914400))
            * (1 + (((12192000 : ℚ) / 6858000) / (16 / 9) - 1) * (1 / 2)) :=
  ⟨by norm_num, C2_resolve_center_ratio ⟨12192000, 6858000⟩ 50 12192000 (by norm_num)⟩

/-- C7 counterexample: with a negative ambient slide height the resolver
does not fall back to the uncorrected base calculation — the negative
ratio makes `|ratio - 16/9| > 0.01` hold, so the adjustment is applied
(here `50%` of a 9144000 EMU axis yields `5/8` inches, not the base `5`). -/
theorem C7_negative_height_counterexample :
    Slide.convert_position ⟨9144000, -6858000⟩ (.pct 50) 9144000 true (some "center")
      ≠ 50 / 100 * (9144000 / 914400) := by
  norm_num [Slide.convert_position, abs]

/-- C7 amended: a zero or negative ambient slide height never raises
(the embedding is total: the only Python exception, the
`ZeroDivisionError` at height 0, is caught by the bare `except` and
yields the base calculation); but only the zero height falls back to the
uncorrected base — a strictly negative height (with positive width)
still applies the aspect-ratio adjustment, computed with the negative
ratio. -/
theorem C7_amended_degenerate_height (s : Slide) (percent slide_dimension : ℚ)
    (hw : 0 < s.slide_width) (hh : s.slide_height ≤ 0) :
    s.convert_position (.pct percent) slide_dimension true (some "center")
      = if s.slide_height = 0 then
          percent / 100 * (slide_dimension / 914400)
        else
          (percent / 100 * (slide_dimension / 914400))
            * (1 + ((s.slide_width / s.slide_height) / (16 / 9) - 1) * (1 / 2)) := by
  rcases eq_or_lt_of_le hh with h0 | hneg
  · simp [Slide.convert_position, h0.symm]
  · have h0 : s.slide_height ≠ 0 := ne_of_lt hneg
    have hr : s.slide_width / s.slide_height < 0 := div_neg_of_pos_of_neg hw hneg
    have habs : (1 : ℚ) / 100 < |s.slide_width / s.slide_height - 16 / 9| := by
      have h1 : (1 : ℚ) / 100 < -(s.slide_width / s.slide_height - 16 / 9) := by linarith
      exact lt_of_lt_of_le h1 (neg_le_abs _)
    rw [if_neg h0]
    simp only [Slide.convert_position, h0, if_false, if_pos habs]
    simp

theorem C7_amended_degenerate_height_witness :
    (0 : ℚ) < (⟨9144000, -6858000⟩ : Slide).slide_width ∧
    (⟨9144000, -6858000⟩ : Slide).slide_height ≤ 0 ∧
    Slide.convert_position ⟨9144000, -6858000⟩ (.pct 50) 9144000 true (some "center")
      = if (⟨9144000, -6858000⟩ : Slide).slide_height = 0 then
          (50 : ℚ) / 100 * (9144000 / 914400)
        else
          ((50 : ℚ) / 100 * (9144000 / 914400))
            * (1 + (((9144000 : ℚ) / (-6858000)) / (16 / 9) - 1) * (1 / 2)) :=
  ⟨by norm_num, by norm_num,
    C7_amended_degenerate_height ⟨9144000, -6858000⟩ 50 9144000 (by norm_num) (by norm_num)⟩

/-- Rounding to two decimal places, modelling the `f"{v:.2f}%"` percent
strings that `grid.py` stores in every `GridCell` (the numeric content of
the string; consumers re-parse it with `float(s.strip("%"))`).  Ties are
rounded up here; CPython formats the underlying binary double with
round-half-even, but no value appearing in the claims sits on a tie. -/
def round2 (q : ℚ) : ℚ := ((q * 100 + 1 / 2).floor : ℚ) / 100

/-- Embedding of `GridCell` (`grid.py` lines 8-52).  The four percent
strings are modelled by their parsed numeric values; `content` holds the
opaque value returned by a content callback. -/
structure GridCell (α : Type) where
  row : ℕ
  col : ℕ
  x : ℚ
  y : ℚ
  width : ℚ
  height : ℚ
  content : Option α := none
  span_rows : ℕ := 1
  span_cols : ℕ := 1
  is_spanned : Bool := false
deriving DecidableEq

/-- Embedding of `Grid` (`grid.py` lines 68-123): geometry of the grid in
its parent container, the fixed row/column counts, padding, default
horizontal alignment, and the 2D cell array. -/
structure Grid (α : Type) where
  x : PosValue
  y : PosValue
  width : PosValue
  height : PosValue
  rows : ℕ
  cols : ℕ
  padding : ℚ
  h_align : Option String
  cells : List (List (GridCell α))
deriving DecidableEq

/-- Embedding of `Grid._create_cells` (`grid.py` lines 125-168): each cell
stores its geometry as two-decimal percent values of the grid's own
container. -/
def create_cells (α : Type) (rows cols : ℕ) (padding : ℚ) : List (List (GridCell α)) :=
  let padding_factor := padding / 100
  let cell_width_percent := 100 / (cols : ℚ)
  let cell_height_percent := 100 / (rows : ℚ)
  let effective_cell_width := cell_width_percent * (1 - padding_factor)
  let effective_cell_height := cell_height_percent * (1 - padding_factor)
  let half_padding_width := cell_width_percent * padding_factor / 2
  let half_padding_height := cell_height_percent * padding_factor / 2
  (List.range rows).map fun row =>
    (List.range cols).map fun col =>
      { row := row
        col := col
        x := round2 ((col : ℚ) * cell_width_percent + half_padding_width)
        y := round2 ((row : ℚ) * cell_height_percent + half_padding_height)
        width := round2 effective_cell_width
        height := round2 effective_cell_height }

/-- Embedding of the `Grid` constructor (`grid.py` lines 87-123), which
stores its arguments and builds the cell array with `_create_cells`.
The Python division `100.0 / self.cols` raises `ZeroDivisionError` when
`cols` (or `rows`) is 0; `mkGridE` below models that fallible entry
point, while this total function is the successful path. -/
def mkGrid (α : Type) (x y width height : PosValue) (rows cols : ℕ)
    (padding : ℚ) (h_align : Option String) : Grid α :=
  { x := x, y := y, width := width, height := height
    rows := rows, cols := cols, padding := padding, h_align := h_align
    cells := create_cells α rows cols padding }

/-- Errors of the grid engine: the library's `OutOfBoundsError` and
`CellMergeError`, plus the uncaught Python `ZeroDivisionError` that
construction hits when `rows` or `cols` is 0. -/
inductive GridError where
  | outOfBounds
  | cellMerge
  | zeroDivision
deriving DecidableEq

/-- A grid exactly as the Python `Grid` constructor stores it: the `rows`
and `cols` arguments are Python ints kept verbatim — possibly zero or
negative — and `cells` is whatever the `range` loops of `_create_cells`
produced. -/
structure GridInt (α : Type) where
  x : PosValue
  y : PosValue
  width : PosValue
  height : PosValue
  rows : ℤ
  cols : ℤ
  padding : ℚ
  h_align : Option String
  cells : List (List (GridCell α))
deriving DecidableEq

/-- Fallible grid construction over the constructor's full int domain.
Python evaluates `100.0 / self.cols` and `100.0 / self.rows` unguarded
in `_create_cells`, so a zero row or column count raises
`ZeroDivisionError`.  Every other int count constructs successfully:
`range(n)` over a negative `n` simply iterates zero times, so the loops
run `max(n, 0)` (`Int.toNat`) times and a negative count yields an empty
cell array while the stored `rows`/`cols` attributes keep their negative
values.  When any cell exists both loop counts are positive, where
`create_cells` over the `toNat` counts divides by the same values the
source does. -/
def mkGridE (α : Type) (x y width height : PosValue) (rows cols : ℤ)
    (padding : ℚ) (h_align : Option String) : Except GridError (GridInt α) :=
  if rows = 0 ∨ cols = 0 then
    .error .zeroDivision
  else
    .ok { x := x, y := y, width := width, height := height
          rows := rows, cols := cols, padding := padding, h_align := h_align
          cells := create_cells α rows.toNat cols.toNat padding }

/-- Total cell lookup used to state properties (out-of-range indices give
a placeholder; the claims always stay in range). -/
def cellAt (g : Grid α) (row col : ℕ) : GridCell α :=
  (g.cells.getD row []).getD col ⟨0, 0, 0, 0, 0, 0, none, 1, 1, false⟩

/-- Evaluation rule for `round2` at concrete inputs, via the floor
characterisation. -/
lemma round2_eq (q : ℚ) (n : ℤ) (h1 : (n : ℚ) ≤ q * 100 + 1 / 2)
    (h2 : q * 100 + 1 / 2 < n + 1) : round2 q = (n : ℚ) / 100 := by
  have hf : ((q * 100 + 1 / 2).floor : ℤ) = n := by
    rw [Rat.floor_def', ← Rat.floor_def]
    exact Int.floor_eq_iff.mpr ⟨h1, by exact_mod_cast h2⟩
  rw [round2, hf]

/-- In-range cell lookup in a freshly constructed grid: each cell holds the
`_create_cells` geometry, rounded to two decimals by the percent-string
formatting, and no content or span. -/
lemma cellAt_mkGrid (α : Type) (xv yv wv hv : PosValue) (r c : ℕ) (p : ℚ)
    (al : Option String) (row col : ℕ) (hrow : row < r) (hcol : col < c) :
    cellAt (mkGrid α xv yv wv hv r c p al) row col =
      { row := row
        col := col
        x := round2 ((col : ℚ) * (100 / (c : ℚ)) + 100 / (c : ℚ) * (p / 100) / 2)
        y := round2 ((row : ℚ) * (100 / (r : ℚ)) + 100 / (r : ℚ) * (p / 100) / 2)
        width := round2 (100 / (c : ℚ) * (1 - p / 100))
        height := round2 (100 / (r : ℚ) * (1 - p / 100)) } := by
  unfold cellAt mkGrid create_cells
  simp only [List.getD_eq_getElem?_getD, List.getElem?_map, List.getElem?_range hrow,
    List.getElem?_range hcol, Option.map_some, Option.map_some', Option.getD_some]

/-- C5 counterexample: in a 1×3 grid with padding 0 the stored x of cell
(0,1) is the two-decimal value 33.33, not the exact formula value
`1 * (100/3) + (100/3) * (0/100) / 2 = 100/3`. -/
theorem C5_cell_formula_counterexample :
    (cellAt (mkGrid ℕ (.pct 0) (.pct 0) (.pct 100) (.pct 100) 1 3 0 (some "center")) 0 1).x
      ≠ (1 : ℚ) * (100 / 3) + 100 / 3 * (0 / 100) / 2 := by
  rw [cellAt_mkGrid ℕ _ _ _ _ 1 3 0 _ 0 1 (by norm_num) (by norm_num)]
  norm_num
  rw [round2_eq (100 / 3) 3333 (by norm_num) (by norm_num)]
  norm_num

/-- C5 amended: every cell of a grid with `rows = r ≥ 1`, `cols = c ≥ 1`
and padding `p` stores the claimed formula values rounded to two
decimals (the `:.2f` percent-string formatting); the 2×2, padding-10
instance is two-decimal exact, so cell (0,0) stores x = 2.50 and
width = 45.00 as the claim says. -/
theorem C5_cell_geometry (α : Type) (xv yv wv hv : PosValue) (r c : ℕ) (p : ℚ)
    (al : Option String) (row col : ℕ) (hrow : row < r) (hcol : col < c) :
    ((cellAt (mkGrid α xv yv wv hv r c p al) row col).x
        = round2 ((col : ℚ) * (100 / (c : ℚ)) + 100 / (c : ℚ) * (p / 100) / 2)
      ∧ (cellAt (mkGrid α xv yv wv hv r c p al) row col).y
        = round2 ((row : ℚ) * (100 / (r : ℚ)) + 100 / (r : ℚ) * (p / 100) / 2)
      ∧ (cellAt (mkGrid α xv yv wv hv r c p al) row col).width
        = round2 (100 / (c : ℚ) * (1 - p / 100))
      ∧ (cellAt (mkGrid α xv yv wv hv r c p al) row col).height
        = round2 (100 / (r : ℚ) * (1 - p / 100)))
    ∧ ((cellAt (mkGrid ℕ (.pct 0) (.pct 0) (.pct 100) (.pct 100) 2 2 10 (some "center")) 0 0).x
        = 5 / 2
      ∧ (cellAt (mkGrid ℕ (.pct 0) (.pct 0) (.pct 100) (.pct 100) 2 2 10 (some "center")) 0 0).width
        = 45) := by
  constructor
  · rw [cellAt_mkGrid α xv yv wv hv r c p al row col hrow hcol]
    exact ⟨rfl, rfl, rfl, rfl⟩
  · rw [cellAt_mkGrid ℕ _ _ _ _ 2 2 10 _ 0 0 (by norm_num) (by norm_num)]
    constructor
    · norm_num
      rw [round2_eq (5 / 2) 250 (by norm_num) (by norm_num)]
      norm_num
    · norm_num
      rw [round2_eq 45 4500 (by norm_num) (by norm_num)]
      norm_num

theorem C5_cell_geometry_witness :
    (0 : ℕ) < 2 ∧ (1 : ℕ) < 3 ∧
    ((cellAt (mkGrid ℕ (.pct 0) (.pct 0) (.pct 100) (.pct 100) 2 3 10 none) 0 1).x
        = round2 ((1 : ℚ) * (100 / (3 : ℚ)) + 100 / (3 : ℚ) * ((10 : ℚ) / 100) / 2)
      ∧ (cellAt (mkGrid ℕ (.pct 0) (.pct 0) (.pct 100) (.pct 100) 2 3 10 none) 0 1).y
        = round2 ((0 : ℚ) * (100 / (2 : ℚ)) + 100 / (2 : ℚ) * ((10 : ℚ) / 100) / 2)
      ∧ (cellAt (mkGrid ℕ (.pct 0) (.pct 0) (.pct 100) (.pct 100) 2 3 10 none) 0 1).width
        = round2 (100 / (3 : ℚ) * (1 - (10 : ℚ) / 100))
      ∧ (cellAt (mkGrid ℕ (.pct 0) (.pct 0) (.pct 100) (.pct 100) 2 3 10 none) 0 1).height
        = round2 (100 / (2 : ℚ) * (1 - (10 : ℚ) / 100))) := by
  refine ⟨by norm_num, by norm_num, ?_⟩
  have h := (C5_cell_geometry ℕ (.pct 0) (.pct 0) (.pct 100) (.pct 100) 2 3 10 none 0 1
    (by norm_num) (by norm_num)).1
  exact_mod_cast h

/-- The sum of the stored width percentages along one row of a grid. -/
def rowWidthSum (g : Grid α) (row : ℕ) : ℚ :=
  ((g.cells.getD row []).map (fun cell => cell.width)).sum

/-- One full row of a freshly constructed grid, as a mapped range. -/
lemma row_of_mkGrid (α : Type) (xv yv wv hv : PosValue) (r c : ℕ) (p : ℚ)
    (al : Option String) (row : ℕ) (hrow : row < r) :
    (mkGrid α xv yv wv hv r c p al).cells.getD row [] =
      (List.range c).map fun col =>
        ({ row := row
           col := col
           x := round2 ((col : ℚ) * (100 / (c : ℚ)) + 100 / (c : ℚ) * (p / 100) / 2)
           y := round2 ((row : ℚ) * (100 / (r : ℚ)) + 100 / (r : ℚ) * (p / 100) / 2)
           width := round2 (100 / (c : ℚ) * (1 - p / 100))
           height := round2 (100 / (r : ℚ) * (1 - p / 100)) } : GridCell α) := by
  unfold mkGrid create_cells
  simp only [List.getD_eq_getElem?_getD, List.getElem?_map, List.getElem?_range hrow,
    Option.map_some, Option.map_some', Option.getD_some]

/-- C8 counterexample: in a 1×3 grid with padding 0 each stored width is
the rounded 33.33, so the row sum is 99.99, not `100 * (1 - 0/100) = 100`. -/
theorem C8_row_width_sum_counterexample :
    rowWidthSum (mkGrid ℕ (.pct 0) (.pct 0) (.pct 100) (.pct 100) 1 3 0 (some "center")) 0
      ≠ 100 * (1 - (0 : ℚ) / 100) := by
  rw [rowWidthSum, row_of_mkGrid ℕ _ _ _ _ 1 3 0 _ 0 (by norm_num)]
  norm_num [List.range_succ]
  rw [round2_eq (100 / 3) 3333 (by norm_num) (by norm_num)]
  norm_num

/-- C8 amended: the row sum of the stored widths is `c` times the rounded
effective width `round2((100/c) * (1 - p/100))`; the unrounded effective
widths do sum to exactly `100 * (1 - p/100)` independently of `c`, but
the stored values are the rounded ones, so the stored sum can differ
(see the counterexample). -/
theorem C8_row_width_sum (α : Type) (xv yv wv hv : PosValue) (r c : ℕ) (p : ℚ)
    (al : Option String) (row : ℕ) (hrow : row < r) (hc : 0 < c) :
    rowWidthSum (mkGrid α xv yv wv hv r c p al) row
        = (c : ℚ) * round2 (100 / (c : ℚ) * (1 - p / 100))
      ∧ (c : ℚ) * (100 / (c : ℚ) * (1 - p / 100)) = 100 * (1 - p / 100) := by
  constructor
  · rw [rowWidthSum, row_of_mkGrid α xv yv wv hv r c p al row hrow]
    rw [List.map_map]
    simp [Function.comp_def, List.sum_replicate, mul_comm]
  · have hc0 : (c : ℚ) ≠ 0 := Nat.cast_ne_zero.mpr hc.ne'
    field_simp
    ring

/-- Replace the element at an index of a list (identity out of range);
models the in-place mutation of one Python list entry. -/
def listUpdate : List β → ℕ → (β → β) → List β
  | [], _, _ => []
  | b :: bs, 0, f => f b :: bs
  | b :: bs, n + 1, f => b :: listUpdate bs n f

/-- Apply an update to the cell at (row, col) of a grid, modelling the
in-place mutation of `self.cells[row][col]`. -/
def gridUpdateCell (g : Grid α) (row col : ℕ) (f : GridCell α → GridCell α) : Grid α :=
  { g with cells := listUpdate g.cells row fun rowList => listUpdate rowList col f }

/-- The inclusive index rectangle visited by the two nested
`range(start, end + 1)` loops of `Grid.merge_cells`. -/
def mergeRange (start_row start_col end_row end_col : ℕ) : List (ℕ × ℕ) :=
  ((List.range (end_row + 1 - start_row)).map fun i =>
    (List.range (end_col + 1 - start_col)).map fun j =>
      (start_row + i, start_col + j)).flatten

/-- Embedding of `Grid.merge_cells` (`grid.py` lines 188-254) over the
method's full Python int index domain, including the source's `< 0`
bounds checks.  The Python method mutates the grid and returns the
origin cell; the embedding returns the updated grid (the origin cell is
`cellAt g start_row start_col` of the result).  The checks, in source
order: bounds (negative or too large), range ordering, then the
`is_spanned` scan over the inclusive rectangle; on success the origin
cell's width/height are recomputed from the stored two-decimal percent
values and re-formatted, its spans are set, and every other cell in the
range is marked spanned.  After the bounds check the indices are
nonnegative, so the in-range arithmetic happens on their `toNat`
values. -/
def Grid.merge_cells (g : Grid α) (start_row start_col end_row end_col : ℤ) :
    Except GridError (Grid α) :=
  if start_row < 0 ∨ (g.rows : ℤ) ≤ start_row ∨ start_col < 0 ∨ (g.cols : ℤ) ≤ start_col
      ∨ end_row < 0 ∨ (g.rows : ℤ) ≤ end_row ∨ end_col < 0 ∨ (g.cols : ℤ) ≤ end_col then
    .error .outOfBounds
  else if end_row < start_row ∨ end_col < start_col then
    .error .cellMerge
  else
    let sr := start_row.toNat
    let sc := start_col.toNat
    let er := end_row.toNat
    let ec := end_col.toNat
    if (mergeRange sr sc er ec).any (fun rc => (cellAt g rc.1 rc.2).is_spanned) then
      .error .cellMerge
    else
      let first_cell := cellAt g sr sc
      let last_cell := cellAt g er ec
      let new_width := (last_cell.x + last_cell.width) - first_cell.x
      let new_height := (last_cell.y + last_cell.height) - first_cell.y
      let g1 := gridUpdateCell g sr sc fun cell =>
        { cell with
            width := round2 new_width
            height := round2 new_height
            span_rows := er - sr + 1
            span_cols := ec - sc + 1 }
      let g2 := (mergeRange sr sc er ec).foldl
        (fun acc rc =>
          if rc.1 = sr ∧ rc.2 = sc then acc
          else gridUpdateCell acc rc.1 rc.2 fun cell => { cell with is_spanned := true })
        g1
      .ok g2

/-- Whether an `Except` computation succeeded. -/
def exceptOk : Except ε β → Bool
  | .ok _ => true
  | .error _ => false

/-- The error of a failed `Except` computation, if any. -/
def exceptErr : Except ε β → Option ε
  | .ok _ => none
  | .error e => some e

/-- The 3×3 grid of the merge scenario (default padding 5, default
alignment, full-slide geometry). -/
def grid33 : Grid ℕ :=
  mkGrid ℕ (.pct 0) (.pct 0) (.pct 100) (.pct 100) 3 3 5 (some "center")

/-- C3 counterexample: after merging (0,0)-(1,1) in a 3×3 grid, merging
(0,0)-(0,0) again does NOT fail — the overlap check only looks at
`is_spanned` and the origin cell of the applied merge is never marked
spanned, so the second call succeeds. -/
theorem C3_remerge_origin_counterexample :
    exceptOk ((grid33.merge_cells 0 0 1 1).bind fun g => g.merge_cells 0 0 0 0) = true := by
  decide

/-- C3 amended: after a successful merge of (0,0)-(1,1) in a 3×3 grid the
origin cell (0,0) is not marked spanned, so re-merging (0,0)-(0,0)
succeeds — passing every check and resetting the origin's spans to
1×1 — while only a range containing a spanned member cell, such as
(0,0)-(1,1) itself, which contains the spanned (0,1), fails with
`CellMergeError`. -/
theorem C3_remerge_behaviour :
    exceptOk ((grid33.merge_cells 0 0 1 1).bind fun g => g.merge_cells 0 0 0 0) = true
    ∧ (((grid33.merge_cells 0 0 1 1).bind fun g => g.merge_cells 0 0 0 0).toOption.map
        fun g => ((cellAt g 0 0).span_rows, (cellAt g 0 0).span_cols)) = some (1, 1)
    ∧ exceptErr ((grid33.merge_cells 0 0 1 1).bind fun g => g.merge_cells 0 0 1 1)
        = some GridError.cellMerge
    ∧ ((grid33.merge_cells 0 0 1 1).toOption.map fun g => (cellAt g 0 0).is_spanned)
        = some false
    ∧ ((grid33.merge_cells 0 0 1 1).toOption.map fun g =>
        ((cellAt g 0 0).span_rows, (cellAt g 0 0).span_cols, (cellAt g 0 1).is_spanned))
        = some (2, 2, true) := by
  refine ⟨by decide, by decide, by decide, by decide, by decide⟩

/-- The row-major placement loop at the end of `Grid.autogrid`
(`grid.py` lines 507-531): each value is stored as the content of the
current cell (the `position_agnostic_wrapper` discards the geometry
keyword arguments and calls the zero-argument callback, whose return
value `add_to_cell` stores in the cell); the column index then advances,
wrapping to the next row, and the loop stops once the row index reaches
`rows`.  The loop keeps the indices in bounds on the fresh grid, so
`add_to_cell`'s bounds/spanned errors cannot fire here. -/
def place_content : Grid α → List α → ℕ → ℕ → Grid α
  | g, [], _, _ => g
  | g, v :: rest, row_idx, col_idx =>
    let g1 := gridUpdateCell g row_idx col_idx fun cell => { cell with content := some v }
    let nxt : ℕ × ℕ := if g1.cols ≤ col_idx + 1 then (row_idx + 1, 0) else (row_idx, col_idx + 1)
    if g1.rows ≤ nxt.1 then g1 else place_content g1 rest nxt.1 nxt.2

lemma place_content_rows (g : Grid α) (l : List α) (r c : ℕ) :
    (place_content g l r c).rows = g.rows := by
  induction l generalizing g r c with
  | nil => rfl
  | cons v rest ih =>
    simp only [place_content]
    split <;> split
    all_goals first
      | rfl
      | (rw [ih]; rfl)

lemma place_content_cols (g : Grid α) (l : List α) (r c : ℕ) :
    (place_content g l r c).cols = g.cols := by
  induction l generalizing g r c with
  | nil => rfl
  | cons v rest ih =>
    simp only [place_content]
    split <;> split
    all_goals first
      | rfl
      | (rw [ih]; rfl)

/-- Grid-dimension inference of `Grid.autogrid` (`grid.py` lines 452-459):
`int(num_items ** 0.5)` is modelled by `Nat.sqrt` (the float square root
truncates to the integer square root at the claims' sizes), and the
`(a + b - 1) // b` ceiling divisions are ℕ divisions. -/
def autogrid_dims (num_items : ℕ) (rowsOpt colsOpt : Option ℕ) : ℕ × ℕ :=
  match rowsOpt, colsOpt with
  | none, none =>
    let cols := max 1 (Nat.sqrt num_items)
    ((num_items + cols - 1) / cols, cols)
  | none, some c => ((num_items + c - 1) / c, c)
  | some r, none => (r, (num_items + r - 1) / r)
  | some r, some c => (r, c)

/-- Embedding of `Grid.autogrid` (`grid.py` lines 409-533) on its
`title = None` path, the one the claims exercise.  With an empty callback
list the source calls `cls(parent, x=x, y=y, width=width, height=height)`
— the `Grid` constructor with position and size only — so the row and
column counts, padding and alignment are the constructor defaults
(1, 1, 5.0, "center") whatever `rows`/`cols` the caller passed; otherwise
the inferred or given dimensions are used and the callback return values
are placed row-major. -/
def Grid.autogrid (α : Type) (content_funcs : List α) (rowsOpt colsOpt : Option ℕ)
    (x y width height : PosValue) (padding : ℚ) (h_align : Option String) : Grid α :=
  if content_funcs.length = 0 then
    mkGrid α x y width height 1 1 5 (some "center")
  else
    let dims := autogrid_dims content_funcs.length rowsOpt colsOpt
    place_content (mkGrid α x y width height dims.1 dims.2 padding h_align) content_funcs 0 0

/-- C4 counterexample: `autogrid` with an empty callback list ignores the
caller-supplied `rows`/`cols` — with `rows=3, cols=2` requested, the
returned grid still has 1 row, not 3. -/
theorem C4_empty_autogrid_counterexample :
    (Grid.autogrid ℕ [] (some 3) (some 2) (.pct 5) (.pct 5) (.pct 90) (.pct 90) 5
      (some "center")).rows ≠ 3 := by
  decide

/-- C4 amended: `autogrid` with an empty callback list returns, without
error, an empty default 1×1 grid (constructor defaults), regardless of
the `rows`/`cols` arguments the caller supplied; no cell holds content,
and the underlying constructor call cannot raise (its dimensions are
the nonzero defaults). -/
theorem C4_empty_autogrid (rowsOpt colsOpt : Option ℕ) (xv yv wv hv : PosValue)
    (padding : ℚ) (al : Option String) :
    (Grid.autogrid ℕ [] rowsOpt colsOpt xv yv wv hv padding al).rows = 1
    ∧ (Grid.autogrid ℕ [] rowsOpt colsOpt xv yv wv hv padding al).cols = 1
    ∧ ((Grid.autogrid ℕ [] rowsOpt colsOpt xv yv wv hv padding al).cells.all
        fun rowList => rowList.all fun cell => cell.content.isNone) = true
    ∧ exceptOk (mkGridE ℕ xv yv wv hv 1 1 5 (some "center")) = true := by
  refine ⟨rfl, rfl, ?_, rfl⟩
  simp [Grid.autogrid, mkGrid, create_cells, List.range_succ]

/-- The 5-callback autogrid scenario (content values stand for the values
returned by the five zero-argument callbacks). -/
def g5auto : Grid ℕ :=
  Grid.autogrid ℕ [10, 20, 30, 40, 50] none none (.pct 5) (.pct 5) (.pct 90) (.pct 90) 5
    (some "center")

lemma autogrid_dims_five : autogrid_dims 5 none none = (3, 2) := by
  norm_num [autogrid_dims]

lemma g5auto_eq : g5auto = place_content
    (mkGrid ℕ (.pct 5) (.pct 5) (.pct 90) (.pct 90) 3 2 5 (some "center"))
    [10, 20, 30, 40, 50] 0 0 := by
  rw [g5auto, Grid.autogrid]
  norm_num [autogrid_dims_five]

/-- C6: with `n ≥ 1` callbacks and neither rows nor cols supplied,
`autogrid` picks `cols = max 1 ⌊√n⌋` and `rows = ⌈n / cols⌉`
(computed as `(n + cols - 1) / cols`); for the 5-callback scenario this
gives 2 columns and 3 rows, the five callback results sit row-major in
cells (0,0), (0,1), (1,0), (1,1), (2,0), and cell (2,1) has no
content. -/
theorem C6_autogrid_auto_dims (content : List ℕ) (h : 1 ≤ content.length) :
    ((Grid.autogrid ℕ content none none (.pct 5) (.pct 5) (.pct 90) (.pct 90) 5
        (some "center")).cols = max 1 (Nat.sqrt content.length)
      ∧ (Grid.autogrid ℕ content none none (.pct 5) (.pct 5) (.pct 90) (.pct 90) 5
          (some "center")).rows
        = (content.length + max 1 (Nat.sqrt content.length) - 1)
            / max 1 (Nat.sqrt content.length))
    ∧ (g5auto.cols = 2 ∧ g5auto.rows = 3
      ∧ (cellAt g5auto 0 0).content = some 10
      ∧ (cellAt g5auto 0 1).content = some 20
      ∧ (cellAt g5auto 1 0).content = some 30
      ∧ (cellAt g5auto 1 1).content = some 40
      ∧ (cellAt g5auto 2 0).content = some 50
      ∧ (cellAt g5auto 2 1).content = none) := by
  have hne : ¬ content.length = 0 := by omega
  constructor
  · constructor
    · rw [Grid.autogrid, if_neg hne, place_content_cols]
      simp [autogrid_dims, mkGrid]
    · rw [Grid.autogrid, if_neg hne, place_content_rows]
      simp [autogrid_dims, mkGrid]
  · rw [g5auto_eq]
    refine ⟨by decide, by decide, by decide, by decide, by decide, by decide, by decide,
      by decide⟩

theorem C6_autogrid_auto_dims_witness :
    1 ≤ ([10, 20, 30, 40, 50] : List ℕ).length ∧
    (((Grid.autogrid ℕ [10, 20, 30, 40, 50] none none (.pct 5) (.pct 5) (.pct 90) (.pct 90) 5
        (some "center")).cols = max 1 (Nat.sqrt ([10, 20, 30, 40, 50] : List ℕ).length)
      ∧ (Grid.autogrid ℕ [10, 20, 30, 40, 50] none none (.pct 5) (.pct 5) (.pct 90) (.pct 90) 5
          (some "center")).rows
        = (([10, 20, 30, 40, 50] : List ℕ).length
              + max 1 (Nat.sqrt ([10, 20, 30, 40, 50] : List ℕ).length) - 1)
            / max 1 (Nat.sqrt ([10, 20, 30, 40, 50] : List ℕ).length))
    ∧ (g5auto.cols = 2 ∧ g5auto.rows = 3
      ∧ (cellAt g5auto 0 0).content = some 10
      ∧ (cellAt g5auto 0 1).content = some 20
      ∧ (cellAt g5auto 1 0).content = some 30
      ∧ (cellAt g5auto 1 1).content = some 40
      ∧ (cellAt g5auto 2 0).content = some 50
      ∧ (cellAt g5auto 2 1).content = none)) :=
  ⟨by decide, C6_autogrid_auto_dims [10, 20, 30, 40, 50] (by decide)⟩

/-- C10 counterexample: the constructor takes Python ints, and a negative
count is not rejected — `Grid(rows=-3, cols=2)` constructs successfully
(`range(-3)` iterates zero times, and `100.0 / -3` raises nothing), with
the stored `rows` attribute still -3, which refutes "every grid that
constructs successfully has rows >= 1 and cols >= 1". -/
theorem C10_negative_rows_counterexample :
    exceptOk (mkGridE ℕ (.pct 0) (.pct 0) (.pct 100) (.pct 100) (-3) 2 5 none) = true
    ∧ ((mkGridE ℕ (.pct 0) (.pct 0) (.pct 100) (.pct 100) (-3) 2 5 none).toOption.map
        fun g => g.rows) = some (-3)
    ∧ ¬ (1 : ℤ) ≤ -3 := by
  refine ⟨by decide, by decide, by decide⟩

/-- C10 amended: over the constructor's int domain, construction fails —
with the undedicated `ZeroDivisionError` from the unguarded
`100.0 / self.cols` and `100.0 / self.rows`, not an `OutOfBoundsError`
or `CellMergeError` — exactly when `rows = 0` or `cols = 0`.  Every
other count, negative counts included, constructs successfully, so a
successfully constructed grid need not have `rows ≥ 1` and `cols ≥ 1`:
with nonzero `cols`, a negative `rows` merely yields an empty cell
array. -/
theorem C10_construction_int_domain (r c : ℤ) (p : ℚ)
    (xv yv wv hv : PosValue) (al : Option String) :
    (exceptOk (mkGridE ℕ xv yv wv hv r c p al) = true ↔ r ≠ 0 ∧ c ≠ 0)
    ∧ ((r = 0 ∨ c = 0) →
        mkGridE ℕ xv yv wv hv r c p al = Except.error GridError.zeroDivision)
    ∧ (r < 0 → c ≠ 0 →
        ((mkGridE ℕ xv yv wv hv r c p al).toOption.map fun g => g.cells) = some []) := by
  refine ⟨?_, ?_, ?_⟩
  · rw [mkGridE]
    by_cases h : r = 0 ∨ c = 0
    · rw [if_pos h]
      simp only [exceptOk]
      constructor
      · intro hfalse; cases hfalse
      · intro hrc; tauto
    · rw [if_neg h]
      simp only [exceptOk]
      constructor
      · intro _; tauto
      · intro _; trivial
  · intro h
    rw [mkGridE, if_pos h]
  · intro hr hc
    have hz : ¬ (r = 0 ∨ c = 0) := by
      rintro (h0 | h0)
      · omega
      · exact hc h0
    have h0 : r.toNat = 0 := Int.toNat_eq_zero.mpr hr.le
    rw [mkGridE, if_neg hz]
    simp [Except.toOption, create_cells, h0]

theorem C10_construction_int_domain_witness :
    (-3 : ℤ) < 0 ∧ ((-3 : ℤ) ≠ 0 ∧ (2 : ℤ) ≠ 0) ∧
    (exceptOk (mkGridE ℕ (.pct 5) (.pct 5) (.pct 90) (.pct 90) (-3) 2 5 none) = true
      ∧ ((mkGridE ℕ (.pct 5) (.pct 5) (.pct 90) (.pct 90) (-3) 2 5 none).toOption.map
          fun g => g.cells) = some []) :=
  ⟨by norm_num, ⟨by norm_num, by norm_num⟩,
    (C10_construction_int_domain (-3) 2 5 (.pct 5) (.pct 5) (.pct 90) (.pct 90) none).1.mpr
      ⟨by norm_num, by norm_num⟩,
    (C10_construction_int_domain (-3) 2 5 (.pct 5) (.pct 5) (.pct 90) (.pct 90) none).2.2
      (by norm_num) (by norm_num)⟩

theorem C8_row_width_sum_witness :
    (0 : ℕ) < 1 ∧ (0 : ℕ) < 3 ∧
    (rowWidthSum (mkGrid ℕ (.pct 0) (.pct 0) (.pct 100) (.pct 100) 1 3 0 (some "center")) 0
        = (3 : ℚ) * round2 (100 / (3 : ℚ) * (1 - (0 : ℚ) / 100))
      ∧ (3 : ℚ) * (100 / (3 : ℚ) * (1 - (0 : ℚ) / 100)) = 100 * (1 - (0 : ℚ) / 100)) := by
  refine ⟨by norm_num, by norm_num, ?_⟩
  have h := C8_row_width_sum ℕ (.pct 0) (.pct 0) (.pct 100) (.pct 100) 1 3 0 (some "center") 0
    (by norm_num) (by norm_num)
  exact_mod_cast h

/-- Python `str.strip("%")`: remove all leading and trailing `%`
characters. -/
def stripPct (s : String) : String :=
  String.mk (((s.data.dropWhile (· = '%')).reverse.dropWhile (· = '%')).reverse)

/-- Python `"%" in x` on a string. -/
def strContainsPct (s : String) : Bool :=
  s.data.any (· = '%')

/-- Python `x.endswith("%")`. -/
def strEndsWithPct (s : String) : Bool :=
  s.data.getLast? == some '%'

/-- Numeric value of a list of decimal digits. -/
def digitsToNat (l : List Char) : ℕ :=
  l.foldl (fun acc ch => 10 * acc + (ch.toNat - 48)) 0

/-- Subset of the Python builtin `int()` covering the texts the claims
feed it: an unsigned run of decimal digits parses to its value; anything
else — in particular fractional text such as `"25.5"` — raises
`ValueError`, modelled as `none`.  (The builtin also accepts signs,
surrounding whitespace and underscores; none of those occur here.) -/
def pyInt (s : String) : Option ℕ :=
  if s.data ≠ [] ∧ s.data.all (·.isDigit) then some (digitsToNat s.data) else none

/-- Subset of the Python builtin `float()` covering the texts the claims
feed it: `digits` or `digits.digits`; anything else raises `ValueError`,
modelled as `none`. -/
def pyFloat (s : String) : Option ℚ :=
  match s.data.splitOn '.' with
  | [w] =>
    if w ≠ [] ∧ w.all (·.isDigit) then some (digitsToNat w) else none
  | [w, f] =>
    if w ≠ [] ∧ w.all (·.isDigit) ∧ f ≠ [] ∧ f.all (·.isDigit) then
      some ((digitsToNat w : ℚ) + (digitsToNat f : ℚ) / (10 : ℚ) ^ f.length)
    else none
  | _ => none

/-- String-level entry of `_convert_position` (`slide.py` lines 84-117)
for textual position values: text ending in `%` has its stripped numeric
part parsed by `float()` (a parse failure is Python's `ValueError`),
other text goes through `float(value)` unchanged; the parsed number is
then resolved by `Slide.convert_position`. -/
def convert_position_text (sl : Slide) (s : String) (dim : ℚ) (is_width : Bool)
    (h_align : Option String) : Except String ℚ :=
  if strEndsWithPct s then
    match pyFloat (stripPct s) with
    | none => .error "ValueError"
    | some p => .ok (sl.convert_position (.pct p) dim is_width h_align)
  else
    match pyFloat s with
    | none => .error "ValueError"
    | some v => .ok (sl.convert_position (.abs v) dim is_width h_align)

/-- The default-alignment heuristic and x-conversion at the head of
`Slide.add_image` (`slide.py` lines 273-282), for a textual `x` (the
heuristic's `isinstance(x, str)` guard is true; numeric `x` skips it).
When `h_align` is unset and the text contains `%`, the heuristic
evaluates `int(x.strip("%")) > 20` — and `int()` raises `ValueError` on
fractional text such as `"25.5"`, aborting before any geometry is
computed.  Otherwise the x position is converted as usual. -/
def add_image_x (sl : Slide) (x : String) (h_align : Option String) : Except String ℚ :=
  match h_align with
  | some a => convert_position_text sl x sl.slide_width true (some a)
  | none =>
    if strContainsPct x then
      match pyInt (stripPct x) with
      | none => .error "ValueError"
      | some k =>
        convert_position_text sl x sl.slide_width true
          (if 20 < k then some "center" else none)
    else
      convert_position_text sl x sl.slide_width true none

/-- The h_align defaulting and x-conversion at the head of
`Slide.add_text` (`slide.py` lines 197-206): `h_align` defaults to
"center" only when `align == "center"`, with no integer parse of the
position text — the percent text goes straight to `float()`, which
accepts fractional text. -/
def add_text_x (sl : Slide) (x : String) (align : String) (h_align : Option String) :
    Except String ℚ :=
  convert_position_text sl x sl.slide_width true
    (if h_align = none ∧ align = "center" then some "center" else h_align)

lemma pyFloat_fractional : pyFloat "25.5" = some ((51 : ℚ) / 2) := by
  have hsplit : "25.5".data.splitOn '.' = [['2', '5'], ['5']] := by decide
  have h2 : '2'.toNat - 48 = 2 := by decide
  have h5 : '5'.toNat - 48 = 5 := by decide
  have hd2 : '2'.isDigit = true := by decide
  have hd5 : '5'.isDigit = true := by decide
  rw [pyFloat, hsplit]
  norm_num [digitsToNat, h2, h5, hd2, hd5]
  intro h
  exact absurd h (List.cons_ne_nil _ _)

/-- C9: for the valid position text `x = "25.5%"` with `h_align` unset,
`add_image` fails with the `ValueError` from `int(x.strip("%"))` in its
default-alignment heuristic, before computing any geometry, while
`add_text` accepts the same `x` (its `float()` parse succeeds) and
resolves it to 25.5% of the slide width. -/
theorem C9_add_image_fractional_percent :
    add_image_x ⟨12192000, 6858000⟩ "25.5%" none = Except.error "ValueError"
    ∧ add_text_x ⟨12192000, 6858000⟩ "25.5%" "left" none
      = Except.ok ((51 : ℚ) / 2 / 100 * (12192000 / 914400)) := by
  constructor
  · have hstrip : stripPct "25.5%" = "25.5" := by decide
    have hint : pyInt "25.5" = none := by decide
    have hcontains : strContainsPct "25.5%" = true := by decide
    rw [add_image_x, hcontains]
    simp only [if_true, hstrip, hint]
  · have hstrip : stripPct "25.5%" = "25.5" := by decide
    have hends : strEndsWithPct "25.5%" = true := by decide
    rw [add_text_x, convert_position_text, hends]
    simp only [if_true, hstrip, pyFloat_fractional, Slide.convert_position]
    norm_num [Slide.convert_position]
